import Mathlib

/-!
# Verification of the Aluminum repository

A shallow embedding, in Lean 4, of the parts of the `TypeDummying/Aluminum`
repository that the verified properties speak about:

* `WebCalculator` (src/tools/webapps/Utility.Calcuator.py): the expression
  evaluator (`evaluate`, `_safe_eval`, `_infix_to_rpn`, `_evaluate_rpn`) and
  the unit converter (`convert_units`).
* `AluminumHistoryRemover` (src/sys/History/Atomics.HistoryRemoval.py): the
  multi-step history removal (`remove_history_atomic`, `remove_history_file`,
  `restore_backup`).
* `AluminumBrowserHistory` (src/sys/History/BrowserHistory.py): `get_history`
  and `export_history`.
* `AluminumDatabase` (src/sys/database.py): the table schema created by
  `create_tables`, `add_history_entry`, `get_history` and the
  `get_connection` context manager.
* `AluminumCodingUtility` (src/tools/webapps/Utility.Coder.py): the stub
  methods.

Numbers that Python holds as `float` are embedded as exact rationals (`ℚ`);
every concrete value appearing in the theorems below is exactly
representable in binary64, so the embedding agrees with the Python code on
those inputs.  The transcendental functions reachable through
`_apply_function` and float exponentiation (`**`) are abstracted into an
`Oracle` parameter; no theorem below depends on the oracle's answers.
-/

namespace WebCalculator

/-- The operator / parenthesis characters of the token grammar
`(\d+\.?\d*|\+|\-|\*|/|\^|\(|\)|[a-z]+)` in `_safe_eval`. -/
def isOpChar (c : Char) : Bool :=
  c = '+' || c = '-' || c = '*' || c = '/' || c = '^' || c = '(' || c = ')'

/-- The character class `[0-9+\-*/^().a-z]` that `_safe_eval` accepts: a
character outside it makes `_safe_eval` raise
`ValueError("Invalid characters in expression")`. -/
def isAllowedChar (c : Char) : Bool :=
  c.isDigit || isOpChar c || c = '.' || c.isLower

/-- One pass of `re.findall(r'(\d+\.?\d*|\+|\-|\*|/|\^|\(|\)|[a-z]+)', s)`:
scan left to right; at each position match, greedily, a number
(`\d+\.?\d*`), a single operator character, or a run of lowercase letters;
a character matching none of the alternatives (after the validity check,
only a `'.'` not preceded by a digit) is skipped.  `fuel` only forces
termination: each step consumes at least one character, so
`fuel = cs.length` (as passed by `tokenize`) never runs out. -/
def tokenizeAux : Nat → List Char → List (List Char)
  | 0, _ => []
  | _ + 1, [] => []
  | fuel + 1, c :: rest =>
    if c.isDigit then
      let ds := rest.takeWhile Char.isDigit
      let r1 := rest.dropWhile Char.isDigit
      match r1 with
      | '.' :: r2 =>
        let ds2 := r2.takeWhile Char.isDigit
        (c :: (ds ++ '.' :: ds2)) :: tokenizeAux fuel (r2.dropWhile Char.isDigit)
      | _ => (c :: ds) :: tokenizeAux fuel r1
    else if isOpChar c then
      [c] :: tokenizeAux fuel rest
    else if c.isLower then
      (c :: rest.takeWhile Char.isLower) :: tokenizeAux fuel (rest.dropWhile Char.isLower)
    else
      tokenizeAux fuel rest

/-- The tokenizer of `_safe_eval` (line 70 of Utility.Calcuator.py). -/
def tokenize (cs : List Char) : List (List Char) :=
  tokenizeAux cs.length cs

/-- `token.replace('.', '').isdigit()`, the number test used by both
`_infix_to_rpn` and `_evaluate_rpn`: drop every `'.'`; the rest must be
nonempty and all digits. -/
def isNumberTok (t : List Char) : Bool :=
  let s := t.filter (fun c => c ≠ '.')
  !s.isEmpty && s.all Char.isDigit

/-- `_get_supported_functions` (lines 156-167). -/
def supportedFunctions : List (List Char) :=
  (["sin", "cos", "tan", "asin", "acos", "atan", "sinh", "cosh", "tanh",
    "log", "log10", "exp", "sqrt", "abs", "ceil", "floor", "round",
    "factorial", "degrees", "radians"]).map String.data

/-- `token in {'+', '-', '*', '/', '^'}`. -/
def isBinOp (t : List Char) : Bool :=
  t = ['+'] || t = ['-'] || t = ['*'] || t = ['/'] || t = ['^']

/-- `precedence.get(token, 0)` with
`precedence = {'+': 1, '-': 1, '*': 2, '/': 2, '^': 3}`. -/
def prec (t : List Char) : Nat :=
  if t = ['+'] || t = ['-'] then 1
  else if t = ['*'] || t = ['/'] then 2
  else if t = ['^'] then 3
  else 0

/-- The loop of `_infix_to_rpn` (lines 92-110).  `output` grows at its end,
exactly as the Python list does; `ops` is the operator stack with its top
first (Python pushes and pops at the list's end).  A `')'` with no matching
`'('` on the stack makes `operators.pop()` raise an `IndexError`, embedded
as `Except.error`.  A token matching no branch (e.g. a letter run that is
not a supported function name) is dropped silently — the `for` loop simply
moves on. -/
def rpnAux : List (List Char) → List (List Char) → List (List Char) →
    Except String (List (List Char))
  | [], output, ops => .ok (output ++ ops)
  | t :: ts, output, ops =>
    if isNumberTok t then rpnAux ts (output ++ [t]) ops
    else if supportedFunctions.contains t then rpnAux ts output (t :: ops)
    else if t = ['('] then rpnAux ts output (t :: ops)
    else if t = [')'] then
      let popped := ops.takeWhile (fun o => o ≠ ['('])
      match ops.dropWhile (fun o => o ≠ ['(']) with
      | [] => .error "IndexError: pop from empty list"
      | _ :: rest => rpnAux ts (output ++ popped) rest
    else if isBinOp t then
      let popped := ops.takeWhile (fun o => o ≠ ['('] && prec o ≥ prec t)
      let rest := ops.dropWhile (fun o => o ≠ ['('] && prec o ≥ prec t)
      rpnAux ts (output ++ popped) (t :: rest)
    else
      rpnAux ts output ops

/-- `_infix_to_rpn` (lines 78-112). -/
def infix_to_rpn (tokens : List (List Char)) : Except String (List (List Char)) :=
  rpnAux tokens [] []

/-- The exact rational value of `float(token)` for a token matching
`\d+\.?\d*`: integer part, then the fractional digits scaled by a power of
ten. -/
def digitsToNat (ds : List Char) : Nat :=
  ds.foldl (fun acc c => acc * 10 + (c.toNat - 48)) 0

/-- `float(token)` on a number token. -/
def parseNum (t : List Char) : ℚ :=
  let intPart := t.takeWhile (fun c => c ≠ '.')
  match t.dropWhile (fun c => c ≠ '.') with
  | '.' :: frac => (digitsToNat intPart : ℚ) + (digitsToNat frac : ℚ) / (10 : ℚ) ^ frac.length
  | _ => (digitsToNat intPart : ℚ)

/-- The float-only operations of the evaluator, abstracted: `pow` stands for
Python's `a ** b`, `applyFn` for `_apply_function` (lines 192-250, the
`math` library calls).  Each may raise, hence the `Except`.  No theorem in
this file constrains the oracle. -/
structure Oracle where
  pow : ℚ → ℚ → Except String ℚ
  applyFn : List Char → List ℚ → Except String ℚ

/-- `_get_function_args`' count: 2 for `log`, otherwise 1 (lines 183-185). -/
def argCount (f : List Char) : Nat :=
  if f = "log".data then 2 else 1

/-- The loop of `_evaluate_rpn` (lines 127-149).  The stack keeps its top
first (Python pushes and pops at the list's end); `b` is popped before `a`.
Division by a zero right operand raises `ValueError("Division by zero")`;
popping an operand off a too-short stack raises an `IndexError`.
`args = [stack.pop() for _ in range(n)][::-1]` is the top `n` elements,
reversed. -/
def evalRpnAux (ora : Oracle) : List (List Char) → List ℚ → Except String (List ℚ)
  | [], stack => .ok stack
  | t :: ts, stack =>
    if isNumberTok t then evalRpnAux ora ts (parseNum t :: stack)
    else if supportedFunctions.contains t then
      let n := argCount t
      if stack.length < n then
        .error ("Not enough arguments for " ++ String.mk t)
      else
        match ora.applyFn t ((stack.take n).reverse) with
        | .ok v => evalRpnAux ora ts (v :: stack.drop n)
        | .error e => .error e
    else if isBinOp t then
      match stack with
      | b :: a :: rest =>
        if t = ['+'] then evalRpnAux ora ts ((a + b) :: rest)
        else if t = ['-'] then evalRpnAux ora ts ((a - b) :: rest)
        else if t = ['*'] then evalRpnAux ora ts ((a * b) :: rest)
        else if t = ['/'] then
          if b = 0 then .error "Division by zero"
          else evalRpnAux ora ts ((a / b) :: rest)
        else
          match ora.pow a b with
          | .ok v => evalRpnAux ora ts (v :: rest)
          | .error e => .error e
      | _ => .error "IndexError: pop from empty list"
    else
      evalRpnAux ora ts stack

/-- `_evaluate_rpn` (lines 114-154): run the loop on an empty stack; a final
stack that is not a single value raises `ValueError("Invalid expression")`. -/
def evaluate_rpn (ora : Oracle) (rpn : List (List Char)) : Except String ℚ :=
  match evalRpnAux ora rpn [] with
  | .ok [v] => .ok v
  | .ok _ => .error "Invalid expression"
  | .error e => .error e

/-- `_safe_eval` (lines 49-76): strip spaces, lowercase, reject characters
outside `[0-9+\-*/^().a-z]`, tokenize, convert to RPN, evaluate. -/
def safe_eval (ora : Oracle) (expression : String) : Except String ℚ :=
  let cs := (expression.data.filter (fun c => c ≠ ' ')).map Char.toLower
  if cs.any (fun c => !isAllowedChar c) then
    .error "Invalid characters in expression"
  else
    match infix_to_rpn (tokenize cs) with
    | .ok rpn => evaluate_rpn ora rpn
    | .error e => .error e

/-- Python's `s.replace(pat, rep)`: scan left to right, replacing each
non-overlapping occurrence of `pat`.  `fuel` only forces termination: each
step consumes at least one character (the patterns used below are
nonempty), so `fuel = s.length` never runs out. -/
def replaceAllAux : Nat → List Char → List Char → List Char → List Char
  | 0, _, _, cs => cs
  | _ + 1, _, _, [] => []
  | fuel + 1, pat, rep, c :: cs =>
    if !pat.isEmpty && pat.isPrefixOf (c :: cs) then
      rep ++ replaceAllAux fuel pat rep ((c :: cs).drop pat.length)
    else
      c :: replaceAllAux fuel pat rep cs

/-- `s.replace(pat, rep)`. -/
def str_replace (s pat rep : List Char) : List Char :=
  replaceAllAux s.length pat rep s

/-- `self.constants` as set up by `__init__` (lines 19-25), in insertion
order, each value as the string `str(value)` produces for the stored Python
number: `str(math.pi)`, `str(math.e)`, `str((1 + math.sqrt(5)) / 2)`,
`str(299792458)` (an `int`, so no decimal point) and `str(9.80665)`. -/
def constants : List (List Char × List Char) :=
  [("pi".data, "3.141592653589793".data),
   ("e".data, "2.718281828459045".data),
   ("phi".data, "1.618033988749895".data),
   ("c".data, "299792458".data),
   ("g".data, "9.80665".data)]

/-- The constant-substitution pass of `evaluate` (lines 38-40): for each
constant, in dictionary order, a raw textual `str.replace` of its name by
its value. -/
def substConstants (cs : List Char) : List Char :=
  constants.foldl (fun acc pr => str_replace acc pr.1 pr.2) cs

/-- `evaluate` (lines 27-47): substitute constants, run `_safe_eval`, and
turn an exception into the string `"Error: " + str(e)`.  The append to
`self.history` is not modelled (no verified property mentions it). -/
def evaluate (ora : Oracle) (expression : String) : String ⊕ ℚ :=
  match safe_eval ora (String.mk (substConstants expression.data)) with
  | .ok v => .inr v
  | .error e => .inl ("Error: " ++ e)

/-- C1: `"2+3*4"` tokenizes, converts to the RPN `2 3 4 * +` (so `*` binds
tighter than `+`), and evaluates to `2 + (3 * 4) = 14`, through `_safe_eval`
and through `evaluate`.  The value `14.0` is exactly representable, so the
rational embedding agrees with Python's float arithmetic here. -/
theorem safe_eval_two_plus_three_times_four (ora : Oracle) :
    infix_to_rpn (tokenize "2+3*4".data) = .ok [['2'], ['3'], ['4'], ['*'], ['+']] ∧
    safe_eval ora "2+3*4" = .ok 14 ∧
    evaluate ora "2+3*4" = .inr 14 := by
  have h : parseNum ['2'] + parseNum ['3'] * parseNum ['4'] = 14 := by
    show ((2 : ℕ) : ℚ) + ((3 : ℕ) : ℚ) * ((4 : ℕ) : ℚ) = 14
    norm_num
  refine ⟨rfl, ?_, ?_⟩
  · calc safe_eval ora "2+3*4"
        = .ok (parseNum ['2'] + parseNum ['3'] * parseNum ['4']) := rfl
      _ = .ok 14 := by rw [h]
  · calc evaluate ora "2+3*4"
        = .inr (parseNum ['2'] + parseNum ['3'] * parseNum ['4']) := rfl
      _ = .inr 14 := by rw [h]

/-- C4: whenever the RPN evaluator reaches a `/` whose right operand (the
top of the stack, popped as `b`) equals `0`, it raises
`ValueError("Division by zero")` — for every remaining RPN tail, left
operand and stack below, and whatever the float oracle does; and hence
`_safe_eval("1/0")` raises `Division by zero` rather than returning a
number. -/
theorem evaluate_rpn_division_by_zero :
    (∀ (ora : Oracle) (ts : List (List Char)) (a : ℚ) (s : List ℚ) (b : ℚ),
       b = 0 →
       evalRpnAux ora (['/'] :: ts) (b :: a :: s) = .error "Division by zero") ∧
    (∀ ora : Oracle, safe_eval ora "1/0" = .error "Division by zero") := by
  constructor
  · intro ora ts a s b hb
    subst hb
    have h : evalRpnAux ora (['/'] :: ts) (0 :: a :: s) =
        if (0 : ℚ) = 0 then .error "Division by zero"
        else evalRpnAux ora ts ((a / 0) :: s) := rfl
    rw [h, if_pos rfl]
  · intro ora
    have h0 : parseNum ['0'] = 0 := by
      show ((0 : ℕ) : ℚ) = 0
      norm_num
    have h1 : safe_eval ora "1/0" =
        match (if parseNum ['0'] = 0
               then (.error "Division by zero" : Except String (List ℚ))
               else evalRpnAux ora [] (parseNum ['1'] / parseNum ['0'] :: [])) with
        | .ok [v] => .ok v
        | .ok _ => .error "Invalid expression"
        | .error e => .error e := rfl
    rw [h1, if_pos h0]

/-- C8: `evaluate` substitutes constants by raw substring replacement, so a
constant name occurring inside a function name corrupts the expression:
`"cos(0)"` becomes `"299792458os(0)"` (the `'c'` → `299792458`
replacement), whose leftover `"os"` token is silently dropped and whose RPN
leaves two values on the stack, so `evaluate` returns the error string
`"Error: Invalid expression"` instead of `1.0`; likewise `"exp(1)"` becomes
`"2.718281828459045xp(1)"` (the `'e'` replacement) and returns the same
error string instead of the value of `e`. -/
theorem evaluate_constant_substitution_corrupts (ora : Oracle) :
    substConstants "cos(0)".data = "299792458os(0)".data ∧
    evaluate ora "cos(0)" = .inl "Error: Invalid expression" ∧
    substConstants "exp(1)".data = "2.718281828459045xp(1)".data ∧
    evaluate ora "exp(1)" = .inl "Error: Invalid expression" :=
  ⟨rfl, rfl, rfl, rfl⟩

/-- The `length_units` dictionary of `convert_units` (lines 349-352), each
factor the exact rational value of the decimal literal in the source. -/
def length_units : List (String × ℚ) :=
  [("m", 1), ("km", 1000), ("cm", 1 / 100), ("mm", 1 / 1000),
   ("in", 254 / 10000), ("ft", 3048 / 10000), ("yd", 9144 / 10000),
   ("mi", 1609344 / 1000)]

/-- The `weight_units` dictionary (lines 353-355). -/
def weight_units : List (String × ℚ) :=
  [("kg", 1), ("g", 1 / 1000), ("mg", 1 / 1000000),
   ("lb", 45359237 / 100000000), ("oz", 28349523125 / 1000000000000)]

/-- The `volume_units` dictionary (lines 356-359). -/
def volume_units : List (String × ℚ) :=
  [("l", 1), ("ml", 1 / 1000), ("gal", 378541 / 100000),
   ("qt", 946353 / 1000000), ("pt", 473176 / 1000000),
   ("cup", 236588 / 1000000), ("floz", 295735 / 10000000)]

/-- `convert_units` (lines 333-375): pick the category both units belong to
(length, then weight, then volume), multiply by the source factor and
divide by the target factor; incompatible or unknown units raise
`ValueError("Unsupported or incompatible units")`. -/
def convert_units (value : ℚ) (from_unit to_unit : String) : Except String ℚ :=
  if (length_units.lookup from_unit).isSome && (length_units.lookup to_unit).isSome then
    .ok (value * (length_units.lookup from_unit).getD 0 / (length_units.lookup to_unit).getD 0)
  else if (weight_units.lookup from_unit).isSome && (weight_units.lookup to_unit).isSome then
    .ok (value * (weight_units.lookup from_unit).getD 0 / (weight_units.lookup to_unit).getD 0)
  else if (volume_units.lookup from_unit).isSome && (volume_units.lookup to_unit).isSome then
    .ok (value * (volume_units.lookup from_unit).getD 0 / (volume_units.lookup to_unit).getD 0)
  else
    .error "Unsupported or incompatible units"

/-- Two units belong to one category of `convert_units`. -/
def sameCategory (u v : String) : Prop :=
  ((length_units.lookup u).isSome ∧ (length_units.lookup v).isSome) ∨
  ((weight_units.lookup u).isSome ∧ (weight_units.lookup v).isSome) ∨
  ((volume_units.lookup u).isSome ∧ (volume_units.lookup v).isSome)

instance (u v : String) : Decidable (sameCategory u v) := by
  unfold sameCategory
  infer_instance

/-- The conversion factor of a known unit (the categories' key sets are
pairwise disjoint, so the chained lookup is unambiguous). -/
def unit_factor (u : String) : ℚ :=
  ((length_units.lookup u).orElse fun _ =>
    (weight_units.lookup u).orElse fun _ => volume_units.lookup u).getD 0

/-- A key with a `some` lookup is one of the association list's keys. -/
theorem mem_keys_of_lookup_isSome {β : Type} (l : List (String × β)) (u : String)
    (h : (l.lookup u).isSome) : u ∈ l.map Prod.fst := by
  induction l with
  | nil => simp [List.lookup] at h
  | cons p es ih =>
    rw [List.lookup] at h
    cases hc : (u == p.1) with
    | true =>
      exact List.mem_map.mpr ⟨p, List.mem_cons_self p es, (eq_of_beq hc).symm⟩
    | false =>
      rw [hc] at h
      exact List.mem_cons_of_mem _ (ih h)

/-- A looked-up value is a value of the association list. -/
theorem lookup_eq_some_mem {β : Type} (l : List (String × β)) (u : String) (q : β)
    (h : l.lookup u = some q) : ∃ p ∈ l, p.2 = q := by
  induction l with
  | nil => simp [List.lookup] at h
  | cons p es ih =>
    rw [List.lookup] at h
    cases hc : (u == p.1) with
    | true =>
      rw [hc] at h
      exact ⟨p, List.mem_cons_self p es, (Option.some.inj h)⟩
    | false =>
      rw [hc] at h
      obtain ⟨r, hr, hq⟩ := ih h
      exact ⟨r, List.mem_cons_of_mem p hr, hq⟩

/-- Every conversion factor of `length_units` is nonzero. -/
theorem length_lookup_ne_zero (u : String) (q : ℚ)
    (h : length_units.lookup u = some q) : q ≠ 0 := by
  obtain ⟨p, hp, hq⟩ := lookup_eq_some_mem _ _ _ h
  subst hq
  fin_cases hp <;> norm_num

/-- Every conversion factor of `weight_units` is nonzero. -/
theorem weight_lookup_ne_zero (u : String) (q : ℚ)
    (h : weight_units.lookup u = some q) : q ≠ 0 := by
  obtain ⟨p, hp, hq⟩ := lookup_eq_some_mem _ _ _ h
  subst hq
  fin_cases hp <;> norm_num

/-- Every conversion factor of `volume_units` is nonzero. -/
theorem volume_lookup_ne_zero (u : String) (q : ℚ)
    (h : volume_units.lookup u = some q) : q ≠ 0 := by
  obtain ⟨p, hp, hq⟩ := lookup_eq_some_mem _ _ _ h
  subst hq
  fin_cases hp <;> norm_num

/-- A weight unit is not a length unit. -/
theorem weight_not_length (u : String) (h : (weight_units.lookup u).isSome) :
    length_units.lookup u = none := by
  have hm := mem_keys_of_lookup_isSome _ _ h
  simp [weight_units] at hm
  rcases hm with rfl | rfl | rfl | rfl | rfl <;> rfl

/-- A volume unit is not a length unit. -/
theorem volume_not_length (u : String) (h : (volume_units.lookup u).isSome) :
    length_units.lookup u = none := by
  have hm := mem_keys_of_lookup_isSome _ _ h
  simp [volume_units] at hm
  rcases hm with rfl | rfl | rfl | rfl | rfl | rfl | rfl <;> rfl

/-- A volume unit is not a weight unit. -/
theorem volume_not_weight (u : String) (h : (volume_units.lookup u).isSome) :
    weight_units.lookup u = none := by
  have hm := mem_keys_of_lookup_isSome _ _ h
  simp [volume_units] at hm
  rcases hm with rfl | rfl | rfl | rfl | rfl | rfl | rfl <;> rfl

/-- `unit_factor` on a length unit is its `length_units` factor. -/
theorem unit_factor_length (u : String) (q : ℚ)
    (h : length_units.lookup u = some q) : unit_factor u = q := by
  unfold unit_factor
  rw [h]
  rfl

/-- `unit_factor` on a weight unit is its `weight_units` factor. -/
theorem unit_factor_weight (u : String) (q : ℚ)
    (h : weight_units.lookup u = some q) : unit_factor u = q := by
  unfold unit_factor
  rw [weight_not_length u (by rw [h]; rfl), h]
  rfl

/-- `unit_factor` on a volume unit is its `volume_units` factor. -/
theorem unit_factor_volume (u : String) (q : ℚ)
    (h : volume_units.lookup u = some q) : unit_factor u = q := by
  unfold unit_factor
  rw [volume_not_length u (by rw [h]; rfl),
      volume_not_weight u (by rw [h]; rfl), h]
  rfl

/-- C5: for every value `x` and every pair of units of one category,
`convert_units` is the linear map `x * factor(from) / factor(to)`, and the
round trip returns exactly `x` over the exact rational arithmetic of this
embedding (the factors are all nonzero). -/
theorem convert_units_linear_invertible (u v : String) (h : sameCategory u v)
    (x : ℚ) :
    convert_units x u v = .ok (x * unit_factor u / unit_factor v) ∧
    convert_units (x * unit_factor u / unit_factor v) v u = .ok x := by
  rcases h with ⟨hu, hv⟩ | ⟨hu, hv⟩ | ⟨hu, hv⟩
  · obtain ⟨fu, hfu⟩ := Option.isSome_iff_exists.mp hu
    obtain ⟨fv, hfv⟩ := Option.isSome_iff_exists.mp hv
    have hfu0 : fu ≠ 0 := length_lookup_ne_zero u fu hfu
    have hfv0 : fv ≠ 0 := length_lookup_ne_zero v fv hfv
    rw [unit_factor_length u fu hfu, unit_factor_length v fv hfv]
    constructor
    · unfold convert_units
      rw [hfu, hfv]
      simp
    · unfold convert_units
      rw [hfu, hfv]
      simp
      field_simp
  · obtain ⟨fu, hfu⟩ := Option.isSome_iff_exists.mp hu
    obtain ⟨fv, hfv⟩ := Option.isSome_iff_exists.mp hv
    have hfu0 : fu ≠ 0 := weight_lookup_ne_zero u fu hfu
    have hfv0 : fv ≠ 0 := weight_lookup_ne_zero v fv hfv
    rw [unit_factor_weight u fu hfu, unit_factor_weight v fv hfv]
    constructor
    · unfold convert_units
      rw [weight_not_length u hu, hfu, hfv]
      simp
    · unfold convert_units
      rw [weight_not_length v hv, hfv, hfu]
      simp
      field_simp
  · obtain ⟨fu, hfu⟩ := Option.isSome_iff_exists.mp hu
    obtain ⟨fv, hfv⟩ := Option.isSome_iff_exists.mp hv
    have hfu0 : fu ≠ 0 := volume_lookup_ne_zero u fu hfu
    have hfv0 : fv ≠ 0 := volume_lookup_ne_zero v fv hfv
    rw [unit_factor_volume u fu hfu, unit_factor_volume v fv hfv]
    constructor
    · unfold convert_units
      rw [volume_not_length u hu, volume_not_weight u hu, hfu, hfv]
      simp
    · unfold convert_units
      rw [volume_not_length v hv, volume_not_weight v hv, hfv, hfu]
      simp
      field_simp

/-- Witness for C5: metres to feet and back at `x = 5`. -/
theorem convert_units_linear_invertible_witness :
    convert_units 5 "m" "ft" = .ok (5 * unit_factor "m" / unit_factor "ft") ∧
    convert_units (5 * unit_factor "m" / unit_factor "ft") "ft" "m" = .ok 5 :=
  convert_units_linear_invertible "m" "ft" (Or.inl ⟨by decide, by decide⟩) 5

end WebCalculator

namespace AluminumHistoryRemover

/-!
The history remover (src/sys/History/Atomics.HistoryRemoval.py) is pure
file-system effect; it is embedded as a trace semantics.  Each primitive
that completes appends one `Act` to the run's trace; a primitive that
raises is an `Except.error` carrying the trace up to that point.  The
environment `Env` fixes the file system's behaviour: whether the history
file exists and which of the fallible primitives succeed.
`clear_related_files`, `vacuum_database` and `clear_cache` catch all of
their own exceptions (lines 72-80, 84-91, 95-103), so only `create_backup`
and `remove_history_file` can raise out of the `try` block of
`remove_history_atomic`.
-/

/-- The observable steps of a run. -/
inductive Act
  | backup        -- `shutil.copy2(history_path, self.backup_dir)` completed
  | overwrite     -- the history file's bytes replaced with `os.urandom`
  | delete        -- `os.remove(history_path)` completed
  | clearRelated  -- the `clear_related_files` sweep ran (own errors swallowed)
  | vacuum        -- the `vacuum_database` step ran (own errors swallowed)
  | clearCache    -- the `clear_cache` step ran (own errors swallowed)
  | restoreCopy   -- `shutil.copy2(backup_file, history_path)` in `restore_backup`
  deriving DecidableEq, Repr

/-- The file system's behaviour for one run. -/
structure Env where
  fileExists : Bool       -- `history_path.exists()` (line 49)
  backupOk : Bool         -- the copy in `create_backup` succeeds (line 40)
  overwriteOk : Bool      -- the overwrite in `remove_history_file` succeeds (lines 51-52)
  deleteOk : Bool         -- `os.remove` succeeds (line 53)
  backupFileExists : Bool -- `backup_file.exists()` in `restore_backup` (line 139)
  restoreCopyOk : Bool    -- the copy in `restore_backup` succeeds (line 140)

/-- `create_backup` (lines 36-44): copy the history file into the backup
directory; on failure, log and re-raise. -/
def create_backup (e : Env) : Except (List Act) (List Act) :=
  if e.backupOk then .ok [.backup] else .error []

/-- `remove_history_file` (lines 46-59): if the file exists, overwrite its
bytes with random data and then delete it, re-raising any failure; if it
does not exist, only log a warning. -/
def remove_history_file (e : Env) : Except (List Act) (List Act) :=
  if e.fileExists then
    if e.overwriteOk then
      if e.deleteOk then .ok [.overwrite, .delete]
      else .error [.overwrite]
    else .error []
  else .ok []

/-- `clear_related_files` (lines 61-80): every per-path failure is caught
inside the loop, so the step never raises. -/
def clear_related_files (_ : Env) : List Act := [.clearRelated]

/-- `vacuum_database` (lines 82-91): catches its own exceptions. -/
def vacuum_database (_ : Env) : List Act := [.vacuum]

/-- `clear_cache` (lines 93-103): catches its own exceptions. -/
def clear_cache (_ : Env) : List Act := [.clearCache]

/-- `restore_backup` (lines 135-145): copy the backup back if it exists;
any exception is caught and swallowed (the function's type has no error
case), so the restore is a single best-effort copy. -/
def restore_backup (e : Env) : List Act :=
  if e.backupFileExists && e.restoreCopyOk then [.restoreCopy] else []

/-- The `try` block of `remove_history_atomic` (lines 113-130): steps 1-5
in order; an error aborts the rest and carries the trace so far. -/
def atomic_try_body (e : Env) : Except (List Act) (List Act) :=
  match create_backup e with
  | .error t => .error t
  | .ok t1 =>
    match remove_history_file e with
    | .error t2 => .error (t1 ++ t2)
    | .ok t2 =>
      .ok (t1 ++ t2 ++ clear_related_files e ++ vacuum_database e ++ clear_cache e)

/-- `remove_history_atomic` (lines 105-133): run the `try` block; on any
exception, catch it and call `restore_backup` (the `except` clause at
lines 131-133 catches every `Exception`). -/
def remove_history_atomic (e : Env) : List Act :=
  match atomic_try_body e with
  | .ok t => t
  | .error t => t ++ restore_backup e

/-- The canonical order of the main steps. -/
def mainOrder : List Act :=
  [.backup, .overwrite, .delete, .clearRelated, .vacuum, .clearCache]

/-- `sub` is a subsequence of `sup` (kept executable so the order theorem
can be settled by `decide`). -/
def isSubseqOf : List Act → List Act → Bool
  | [], _ => true
  | _ :: _, [] => false
  | a :: as, b :: bs => if a = b then isSubseqOf as bs else isSubseqOf (a :: as) bs

/-- C2: in every run, the steps that happen, happen in the fixed order
backup → overwrite → delete → clear related → vacuum → clear cache (the
trace without the restore step is a subsequence of that order); a run in
which nothing fails and the history file exists performs exactly the six
steps in that order; and no destructive step on the history file
(overwrite or delete) ever precedes the backup: whenever one occurs, the
run's first completed step is the backup. -/
theorem remove_history_atomic_step_order :
    ∀ fe bo oo dk bf rc : Bool,
      isSubseqOf ((remove_history_atomic ⟨fe, bo, oo, dk, bf, rc⟩).filter
          (fun a => a ≠ Act.restoreCopy)) mainOrder = true ∧
      (fe = true → bo = true → oo = true → dk = true →
        remove_history_atomic ⟨fe, bo, oo, dk, bf, rc⟩ = mainOrder) ∧
      ((Act.overwrite ∈ remove_history_atomic ⟨fe, bo, oo, dk, bf, rc⟩ ∨
        Act.delete ∈ remove_history_atomic ⟨fe, bo, oo, dk, bf, rc⟩) →
        (remove_history_atomic ⟨fe, bo, oo, dk, bf, rc⟩).head? = some Act.backup) := by
  decide

/-- Witness for C2 at the all-succeeding environment. -/
theorem remove_history_atomic_step_order_witness :
    remove_history_atomic ⟨true, true, true, true, true, true⟩ = mainOrder :=
  (remove_history_atomic_step_order true true true true true true).2.1 rfl rfl rfl rfl

/-- C3: whenever the `try` block raises (whatever the failure), the
exception is caught — `remove_history_atomic` still returns a trace — and
that trace is the partial work followed by exactly the actions of
`restore_backup`, which performs at most one file copy (it is a single
best-effort copy, not a rollback of the other steps). -/
theorem remove_history_atomic_restores_on_failure :
    ∀ fe bo oo dk bf rc : Bool, ∀ t : List Act,
      atomic_try_body ⟨fe, bo, oo, dk, bf, rc⟩ = .error t →
      remove_history_atomic ⟨fe, bo, oo, dk, bf, rc⟩ =
        t ++ restore_backup ⟨fe, bo, oo, dk, bf, rc⟩ ∧
      (restore_backup ⟨fe, bo, oo, dk, bf, rc⟩ = [] ∨
       restore_backup ⟨fe, bo, oo, dk, bf, rc⟩ = [Act.restoreCopy]) := by
  intro fe bo oo dk bf rc t h
  constructor
  · unfold remove_history_atomic
    rw [h]
  · unfold restore_backup
    cases bf <;> cases rc <;> simp

/-- Witness for C3: the backup copy itself fails, the history file is
untouched, and the (absent) backup cannot be copied back. -/
theorem remove_history_atomic_restores_on_failure_witness :
    remove_history_atomic ⟨true, false, true, true, false, true⟩ =
      [] ++ restore_backup ⟨true, false, true, true, false, true⟩ ∧
    (restore_backup ⟨true, false, true, true, false, true⟩ = [] ∨
     restore_backup ⟨true, false, true, true, false, true⟩ = [Act.restoreCopy]) :=
  remove_history_atomic_restores_on_failure true false true true false true [] rfl

end AluminumHistoryRemover

namespace AluminumBrowserHistory

/-- One row of the `urls` table read by `get_history`
(src/sys/History/BrowserHistory.py, lines 79-84). -/
structure UrlRow where
  id : Nat
  url : String
  title : String
  visit_count : Nat
  last_visit_time : Int
  deriving DecidableEq, Repr

/-- ASCII lowering of `format.lower()` (the format strings are ASCII). -/
def lowerStr (s : String) : String :=
  String.mk (s.data.map Char.toLower)

/-- `get_history` (lines 68-98): `SELECT ... FROM urls ORDER BY
last_visit_time DESC LIMIT ? OFFSET ?`.  SQLite drops `offset` rows (a
negative offset drops none) and then returns at most `limit` rows, a
negative `limit` meaning no limit at all. -/
def get_history (db : List UrlRow) (limit offset : Int) : List UrlRow :=
  let sorted := db.mergeSort (fun a b => a.last_visit_time ≥ b.last_visit_time)
  let page := sorted.drop offset.toNat
  if limit < 0 then page else page.take limit.toNat

/-- `export_history` (lines 226-253): fetch `get_history(limit=0)`, write it
as JSON (`json.dump` of the list, so `[]` when the list is empty) or as CSV
(a header row, then one row per entry), return `True`; an unsupported
format raises a `ValueError` caught by the `except` as `False`, and an
`IOError` while writing (modelled by `ioOk = false`) is caught the same
way.  The result pairs the returned boolean with the list of entries the
written file contains. -/
def export_history (db : List UrlRow) (format : String) (ioOk : Bool) :
    Bool × List UrlRow :=
  let history := get_history db 0 0
  if lowerStr format = "json" then
    if ioOk then (true, history) else (false, [])
  else if lowerStr format = "csv" then
    if ioOk then (true, history) else (false, [])
  else (false, [])

/-- C6: `export_history` reads its rows through `get_history(limit=0)`, and
`LIMIT 0` returns no rows, so for every database state and both supported
formats the export succeeds (returns `True`) while writing zero history
entries — a JSON `[]` or a header-only CSV — no matter how many rows the
`urls` table holds. -/
theorem export_history_exports_nothing (db : List UrlRow) (format : String)
    (h : lowerStr format = "json" ∨ lowerStr format = "csv") :
    export_history db format true = (true, []) ∧ get_history db 0 0 = [] := by
  have hg : get_history db 0 0 = [] := by
    unfold get_history
    simp
  refine ⟨?_, hg⟩
  unfold export_history
  rcases h with h | h <;> rw [h] <;> simp [hg]

/-- Witness for C6: a nonempty `urls` table exported as JSON. -/
theorem export_history_exports_nothing_witness :
    export_history [⟨1, "https://example.com", "Example", 3, 13340000000000000⟩]
        "json" true = (true, []) ∧
    get_history [⟨1, "https://example.com", "Example", 3, 13340000000000000⟩] 0 0
      = [] :=
  export_history_exports_nothing _ "json" (Or.inl rfl)

end AluminumBrowserHistory

namespace AluminumDatabase

/-!
src/sys/database.py.  Each operation runs inside the `get_connection`
context manager, whose `finally` closes the connection (lines 30-42); the
embedding gives every operation the id of the fresh connection it opens
and records the connection events of the call.  SQLite itself is embedded
only as far as the claims need it: the schema `create_tables` declares,
and the prepare-time rule for `ON CONFLICT` targets.
-/

/-- A column of a table created by `create_tables` (lines 44-92), with the
constraints the `CREATE TABLE` text declares for it. -/
structure ColumnSpec where
  name : String
  primaryKey : Bool
  uniqueCol : Bool
  deriving DecidableEq, Repr

/-- The `history` table's columns (lines 53-61): only `id` carries a
`PRIMARY KEY`; `url` is merely `TEXT NOT NULL`, with no `UNIQUE`. -/
def history_columns : List ColumnSpec :=
  [⟨"id", true, false⟩, ⟨"url", false, false⟩, ⟨"title", false, false⟩,
   ⟨"visit_time", false, false⟩, ⟨"visit_count", false, false⟩]

/-- SQLite's prepare-time rule for an upsert: `ON CONFLICT (col) DO UPDATE`
is accepted only when `col` is covered by a `PRIMARY KEY` or `UNIQUE`
constraint of the table; otherwise the statement fails with
`sqlite3.OperationalError` before touching any row. -/
def conflictTargetValid (cols : List ColumnSpec) (target : String) : Bool :=
  cols.any fun c => c.name == target && (c.primaryKey || c.uniqueCol)

/-- One row of the `history` table. -/
structure HistoryRow where
  url : String
  title : String
  visit_time : Int
  visit_count : Nat
  deriving DecidableEq, Repr

/-- What the upsert of `add_history_entry` would do if its `ON CONFLICT`
clause were valid: insert, or bump `visit_count` of the existing row. -/
def upsertHistory (db : List HistoryRow) (url title : String) (now : Int) :
    List HistoryRow :=
  if db.any (fun r => r.url == url) then
    db.map fun r =>
      if r.url == url then { r with visit_count := r.visit_count + 1, visit_time := now }
      else r
  else db ++ [⟨url, title, now, 1⟩]

/-- The body of `add_history_entry` (lines 94-111): `INSERT INTO history
(url, title) VALUES (?, ?) ON CONFLICT(url) DO UPDATE ...`.  The conflict
target `url` is checked against the table's constraints when the statement
is prepared; an invalid target raises, leaving the table unchanged (the
error value carries no new table state). -/
def add_history_entry_body (db : List HistoryRow) (url title : String)
    (now : Int) : Except String (List HistoryRow) :=
  if conflictTargetValid history_columns "url" then
    .ok (upsertHistory db url title now)
  else
    .error "sqlite3.OperationalError: ON CONFLICT clause does not match any PRIMARY KEY or UNIQUE constraint"

/-- A connection-lifecycle event of one database call. -/
inductive ConnEvent
  | openConn (id : Nat)   -- `sqlite3.connect(self.db_path)` (line 37)
  | closeConn (id : Nat)  -- `conn.close()` in the `finally` (lines 40-42)
  deriving DecidableEq, Repr

/-- `get_connection` (lines 30-42): open a fresh connection, hand it to the
operation's body, and close it in the `finally` block — whether the body
returns or raises.  `connId` is the identity of the fresh connection this
call opens; the pair is the body's outcome and the call's connection
events. -/
def get_connection {α : Type} (connId : Nat) (body : Nat → Except String α) :
    Except String α × List ConnEvent :=
  (body connId, [ConnEvent.openConn connId, ConnEvent.closeConn connId])

/-- `get_history` of AluminumDatabase (lines 113-127): `SELECT * FROM
history ORDER BY visit_time DESC LIMIT ?` inside `get_connection` (a
negative SQLite limit means no limit). -/
def get_history (db : List HistoryRow) (limit : Int) (connId : Nat) :
    Except String (List HistoryRow) × List ConnEvent :=
  get_connection connId fun _ =>
    .ok (let sorted := db.mergeSort fun a b => a.visit_time ≥ b.visit_time
         if limit < 0 then sorted else sorted.take limit.toNat)

/-- `add_history_entry` (lines 94-111): the upsert statement runs inside
`get_connection`; its body raises (see `add_history_entry_body`), and the
exception propagates out of the `with` block after the connection closes. -/
def add_history_entry (db : List HistoryRow) (url title : String) (now : Int)
    (connId : Nat) : Except String (List HistoryRow) × List ConnEvent :=
  get_connection connId fun _ => add_history_entry_body db url title now

/-- C7: `add_history_entry` always raises: the `history` table that
`create_tables` declares has no `PRIMARY KEY` or `UNIQUE` constraint on
`url`, so the statement's `ON CONFLICT(url)` target matches no constraint
and the insert fails for every database state, URL and title, inserting
nothing — the error outcome carries no modified table. -/
theorem add_history_entry_always_fails (db : List HistoryRow)
    (url title : String) (now : Int) (connId : Nat) :
    conflictTargetValid history_columns "url" = false ∧
    (add_history_entry db url title now connId).1 =
      .error "sqlite3.OperationalError: ON CONFLICT clause does not match any PRIMARY KEY or UNIQUE constraint" := by
  constructor
  · rfl
  · show add_history_entry_body db url title now = _
    unfold add_history_entry_body
    rw [show conflictTargetValid history_columns "url" = false from rfl]
    simp

/-- C10: every operation's database access is bracketed by
`get_connection`: the call opens one fresh connection and closes that same
connection before returning, whatever the body does — including when it
raises — and the body's outcome (value or exception) passes through
unchanged.  Instantiated at the two cited operations: `get_history`, whose
body returns rows, and `add_history_entry`, whose body always raises; both
calls' connection traces are exactly open-then-close of the call's own
connection, so no connection object survives a call (no pooling, no
cross-call transaction). -/
theorem connection_opened_and_closed_per_call :
    ∀ (connId : Nat),
      (∀ (α : Type) (body : Nat → Except String α),
        (get_connection connId body).2 =
          [ConnEvent.openConn connId, ConnEvent.closeConn connId] ∧
        (get_connection connId body).1 = body connId) ∧
      (∀ (db : List HistoryRow) (limit : Int),
        (get_history db limit connId).2 =
          [ConnEvent.openConn connId, ConnEvent.closeConn connId]) ∧
      (∀ (db : List HistoryRow) (url title : String) (now : Int),
        (add_history_entry db url title now connId).2 =
          [ConnEvent.openConn connId, ConnEvent.closeConn connId]) :=
  fun _ => ⟨fun _ _ => ⟨rfl, rfl⟩, fun _ _ => rfl, fun _ _ _ _ => rfl⟩

end AluminumDatabase

namespace AluminumCodingUtility

/-!
src/tools/webapps/Utility.Coder.py.  `__init__` (lines 17-37) sets up four
attributes; every other method's body is a docstring followed by `pass`,
so each call returns Python's `None` — embedded as `none` — and leaves the
object's state untouched.  Each method is embedded as a function from the
object's state and the method's arguments to the returned value paired
with the state after the call; the `Option` result types render the
annotated return types, with `none` for the `None` a `pass` body returns.
-/

/-- The object state `__init__` creates: `language_extensions` (the twelve
entries of lines 21-34), `code_snippets = {}`, `api_endpoints = {}`,
`current_project = None`. -/
structure CoderState where
  language_extensions : List (String × String)
  code_snippets : List (String × String)
  api_endpoints : List (String × String)
  current_project : Option String
  deriving DecidableEq, Repr

/-- The state `__init__` builds. -/
def initState : CoderState :=
  { language_extensions :=
      [("python", ".py"), ("javascript", ".js"), ("html", ".html"),
       ("css", ".css"), ("java", ".java"), ("c++", ".cpp"), ("ruby", ".rb"),
       ("php", ".php"), ("swift", ".swift"), ("go", ".go"), ("rust", ".rs"),
       ("typescript", ".ts")],
    code_snippets := [],
    api_endpoints := [],
    current_project := none }

def detect_language (s : CoderState) (_code : String) :
    Option String × CoderState := (none, s)

def format_code (s : CoderState) (_code _language : String) :
    Option String × CoderState := (none, s)

def generate_documentation (s : CoderState) (_code _language : String) :
    Option String × CoderState := (none, s)

def analyze_complexity (s : CoderState) (_code : String) :
    Option (List (String × ℚ)) × CoderState := (none, s)

def suggest_optimizations (s : CoderState) (_code _language : String) :
    Option (List String) × CoderState := (none, s)

def search_documentation (s : CoderState) (_query _language : String) :
    Option (List (List (String × String))) × CoderState := (none, s)

def generate_unit_tests (s : CoderState) (_code _language : String) :
    Option String × CoderState := (none, s)

def lint_code (s : CoderState) (_code _language : String) :
    Option (List (List (String × String))) × CoderState := (none, s)

def encrypt_code (s : CoderState) (_code _key : String) :
    Option String × CoderState := (none, s)

def decrypt_code (s : CoderState) (_encrypted_code _key : String) :
    Option String × CoderState := (none, s)

def compress_code (s : CoderState) (_code : String) :
    Option String × CoderState := (none, s)

def decompress_code (s : CoderState) (_compressed_code : String) :
    Option String × CoderState := (none, s)

def convert_language (s : CoderState) (_code _from_language _to_language : String) :
    Option String × CoderState := (none, s)

def generate_api_documentation (s : CoderState) (_code _language : String) :
    Option (List (String × String)) × CoderState := (none, s)

def analyze_dependencies (s : CoderState) (_code _language : String) :
    Option (List String) × CoderState := (none, s)

def generate_code_snippet (s : CoderState) (_description _language : String) :
    Option String × CoderState := (none, s)

def analyze_code_quality (s : CoderState) (_code _language : String) :
    Option (List (String × ℚ)) × CoderState := (none, s)

def generate_commit_message (s : CoderState) (_diff : String) :
    Option String × CoderState := (none, s)

def suggest_code_reviews (s : CoderState) (_code _language : String) :
    Option (List String) × CoderState := (none, s)

def generate_code_metrics (s : CoderState) (_code _language : String) :
    Option (List (String × ℚ)) × CoderState := (none, s)

def suggest_refactoring (s : CoderState) (_code _language : String) :
    Option (List (List (String × String))) × CoderState := (none, s)

def generate_code_summary (s : CoderState) (_code _language : String) :
    Option String × CoderState := (none, s)

def detect_security_vulnerabilities (s : CoderState) (_code _language : String) :
    Option (List (List (String × String))) × CoderState := (none, s)

def generate_performance_profile (s : CoderState) (_code _language : String) :
    Option (List (String × ℚ)) × CoderState := (none, s)

def suggest_design_patterns (s : CoderState) (_code _language : String) :
    Option (List String) × CoderState := (none, s)

def generate_code_visualization (s : CoderState) (_code _language : String) :
    Option String × CoderState := (none, s)

def analyze_code_similarity (s : CoderState) (_code1 _code2 _language : String) :
    Option ℚ × CoderState := (none, s)

def generate_code_documentation_website (s : CoderState) (_code _language : String) :
    Option String × CoderState := (none, s)

def suggest_code_completions (s : CoderState) (_code : String)
    (_cursor_position : Int) (_language : String) :
    Option (List String) × CoderState := (none, s)

def generate_code_quiz (s : CoderState) (_code _language : String) :
    Option (List (List (String × String))) × CoderState := (none, s)

def suggest_code_optimizations (s : CoderState) (_code _language : String) :
    Option (List (List (String × String))) × CoderState := (none, s)

def generate_code_documentation_pdf (s : CoderState) (_code _language : String) :
    Option (List UInt8) × CoderState := (none, s)

def analyze_code_readability (s : CoderState) (_code _language : String) :
    Option (List (String × ℚ)) × CoderState := (none, s)

/-- C9: every method of `AluminumCodingUtility` other than `__init__` is an
unimplemented stub: for every object state and every input, each of the 33
methods returns `None` and leaves `language_extensions`, `code_snippets`,
`api_endpoints` and `current_project` exactly as they were. -/
theorem all_methods_are_stubs :
    ∀ (s : CoderState) (a b c : String) (n : Int),
      detect_language s a = (none, s) ∧
      format_code s a b = (none, s) ∧
      generate_documentation s a b = (none, s) ∧
      analyze_complexity s a = (none, s) ∧
      suggest_optimizations s a b = (none, s) ∧
      search_documentation s a b = (none, s) ∧
      generate_unit_tests s a b = (none, s) ∧
      lint_code s a b = (none, s) ∧
      encrypt_code s a b = (none, s) ∧
      decrypt_code s a b = (none, s) ∧
      compress_code s a = (none, s) ∧
      decompress_code s a = (none, s) ∧
      convert_language s a b c = (none, s) ∧
      generate_api_documentation s a b = (none, s) ∧
      analyze_dependencies s a b = (none, s) ∧
      generate_code_snippet s a b = (none, s) ∧
      analyze_code_quality s a b = (none, s) ∧
      generate_commit_message s a = (none, s) ∧
      suggest_code_reviews s a b = (none, s) ∧
      generate_code_metrics s a b = (none, s) ∧
      suggest_refactoring s a b = (none, s) ∧
      generate_code_summary s a b = (none, s) ∧
      detect_security_vulnerabilities s a b = (none, s) ∧
      generate_performance_profile s a b = (none, s) ∧
      suggest_design_patterns s a b = (none, s) ∧
      generate_code_visualization s a b = (none, s) ∧
      analyze_code_similarity s a b c = (none, s) ∧
      generate_code_documentation_website s a b = (none, s) ∧
      suggest_code_completions s a n b = (none, s) ∧
      generate_code_quiz s a b = (none, s) ∧
      suggest_code_optimizations s a b = (none, s) ∧
      generate_code_documentation_pdf s a b = (none, s) ∧
      analyze_code_readability s a b = (none, s) :=
  fun _ _ _ _ _ =>
    ⟨rfl, rfl, rfl, rfl, rfl, rfl, rfl, rfl, rfl, rfl, rfl, rfl, rfl, rfl,
     rfl, rfl, rfl, rfl, rfl, rfl, rfl, rfl, rfl, rfl, rfl, rfl, rfl, rfl,
     rfl, rfl, rfl, rfl, rfl⟩

end AluminumCodingUtility
